import Mathlib

/-!
Shallow embedding of the subscriber-list backend (`src/backend/backend.py`).

Modelling conventions:
- The Python `dict` index `self.subscribers` is an association list
  `List (String × Subscriber)` in insertion order; Python dict assignment
  replaces the value in place when the key is present and appends otherwise,
  which `dictInsert` mirrors.
- Timestamps (`datetime.now().isoformat()`) are abstract instants modelled as
  `Nat`; each operation call receives one instant `now` covering all the
  `datetime.now()` calls it makes.
- `hashlib.sha256(f"{email}{now}").hexdigest()` is external; `mkToken` models
  it by its input string (only equality of tokens is ever observed).
- Metadata (`Dict` of string to arbitrary JSON-serializable value) is modelled
  as `List (String × String)`.
- JSON file persistence is modelled by `JVal` trees and a `FileState`; each
  mutating operation returns the list of file writes it performed, so that
  "persists once" / "performs no save" are statable. Logging is not modelled.
-/

set_option autoImplicit false

/-- A JSON value, as produced by `json.dump` / consumed by `json.load`
(restricted to the shapes this program writes). -/
inductive JVal where
  | str (s : String)
  | num (n : Nat)
  | bool (b : Bool)
  | obj (fields : List (String × JVal))

/-- Metadata mappings (`Dict` in Python), modelled as string-to-string
association lists. -/
abbrev Metadata := List (String × String)

/-- The `Subscriber` dataclass of `backend.py`. -/
structure Subscriber where
  email : String
  joined_date : Nat
  status : String
  verification_token : String
  verified : Bool
  last_updated : Nat
  metadata : Metadata
deriving DecidableEq, Repr

/-- State of the backing storage file: absent, or present with either a
parsed JSON value or unparseable content (`none`). -/
inductive FileState where
  | absent
  | present (content : Option JVal)

/-- The in-memory state of `SubscriberManager`: its `subscribers` dict. -/
structure SubscriberManager where
  subscribers : List (String × Subscriber)
deriving DecidableEq, Repr

/-- Python dict assignment `d[k] = v`: replace in place if the key is
present, otherwise append at the end (insertion order preserved). -/
def dictInsert (l : List (String × Subscriber)) (k : String) (v : Subscriber) :
    List (String × Subscriber) :=
  match l with
  | [] => [(k, v)]
  | (k', v') :: rest => if k' = k then (k, v) :: rest else (k', v') :: dictInsert rest k v

/-- Encoding of a metadata mapping as a JSON object (`json.dump`). -/
def encodeMeta (md : Metadata) : JVal :=
  .obj (md.map fun p => (p.1, .str p.2))

/-- Decoding of a metadata mapping from JSON. -/
def decodeMetaEntries : List (String × JVal) → Option Metadata
  | [] => some []
  | (k, .str s) :: rest => (decodeMetaEntries rest).map (fun r => (k, s) :: r)
  | _ => none

/-- Decoding of a metadata JSON value. -/
def decodeMeta : JVal → Option Metadata
  | .obj fs => decodeMetaEntries fs
  | _ => none

/-- `dataclasses.asdict(subscriber)` followed by JSON encoding. -/
def encodeSubscriber (s : Subscriber) : JVal :=
  .obj [("email", .str s.email),
        ("joined_date", .num s.joined_date),
        ("status", .str s.status),
        ("verification_token", .str s.verification_token),
        ("verified", .bool s.verified),
        ("last_updated", .num s.last_updated),
        ("metadata", encodeMeta s.metadata)]

/-- `Subscriber(**sub_data)`: requires exactly the seven dataclass fields
(a missing or extra keyword raises `TypeError`, caught by the loader). -/
def decodeSubscriber : JVal → Option Subscriber
  | .obj fs =>
    match fs.lookup "email", fs.lookup "joined_date", fs.lookup "status",
          fs.lookup "verification_token", fs.lookup "verified",
          fs.lookup "last_updated", fs.lookup "metadata" with
    | some (.str e), some (.num jd), some (.str st), some (.str vt),
      some (.bool v), some (.num lu), some mj =>
      if fs.length = 7 then
        (decodeMeta mj).map fun md =>
          { email := e, joined_date := jd, status := st, verification_token := vt,
            verified := v, last_updated := lu, metadata := md }
      else none
    | _, _, _, _, _, _, _ => none
  | _ => none

/-- Encoding of the whole subscribers dict (`{email: asdict(sub)}`). -/
def encodeIndex (subs : List (String × Subscriber)) : JVal :=
  .obj (subs.map fun p => (p.1, encodeSubscriber p.2))

/-- Decoding of the entry list of the subscribers JSON object. -/
def decodeIndexEntries : List (String × JVal) → Option (List (String × Subscriber))
  | [] => some []
  | (k, jv) :: rest =>
    match decodeSubscriber jv with
    | some s => (decodeIndexEntries rest).map (fun r => (k, s) :: r)
    | none => none

/-- Decoding of the subscribers JSON value (`{email: Subscriber(**sub_data)}`). -/
def decodeIndex : JVal → Option (List (String × Subscriber))
  | .obj fs => decodeIndexEntries fs
  | _ => none

/-- Modelled from the spec: the external `email_validator.validate_email`
library call (not part of this repository). Per the spec, registration
requires "a syntactically and domain-valid address (format +
deliverability-shape checks)" and uses "the validator's normalized form".
Valid iff there is exactly one `"@"`, a nonempty local part, and a domain
made of at least two nonempty dot-separated labels; normalization
lower-cases the domain part. -/
def validate_email (email : String) : Option String :=
  let cs := email.data
  let local_part := cs.takeWhile (fun c => c ≠ '@')
  match cs.dropWhile (fun c => c ≠ '@') with
  | '@' :: domain =>
    if local_part ≠ [] ∧ ('@' ∉ domain) ∧
        (let labels := domain.splitOn '.'
         2 ≤ labels.length ∧ ∀ lb ∈ labels, lb ≠ []) then
      some (String.mk (local_part ++ '@' :: domain.map Char.toLower))
    else none
  | _ => none

/-- Model of Python `str.lower()`: lower-case every character. -/
def strLower (s : String) : String :=
  String.mk (s.data.map Char.toLower)

/-- Model of `hashlib.sha256(f"{email}{datetime.now().isoformat()}").hexdigest()`:
the hash itself is external, so the token is modelled by the hash input
(only token equality is ever observed by the program). -/
def mkToken (email : String) (now : Nat) : String :=
  email ++ Nat.repr now

/-- A returned HTTP payload: the jsonified dict plus the status code. -/
abbrev Resp := List (String × String) × Nat

/-- The three mutations `verify_subscriber` applies to a matched record. -/
def verifySet (s : Subscriber) (now : Nat) : Subscriber :=
  { s with verified := true, status := "active", last_updated := now }

/-- The record `add_subscriber` constructs on a successful registration. -/
def freshSubscriber (email : String) (metadata : Option Metadata) (now : Nat) :
    Subscriber :=
  { email := strLower email, joined_date := now, status := "pending",
    verification_token := mkToken email now, verified := false,
    last_updated := now, metadata := metadata.getD [] }

namespace SubscriberManager

/-- `load_subscribers`: if the file is absent the current dict is kept
(it is `{}` at the only call site, `__init__`); if the file exists but
cannot be parsed or decoded, the exception is caught and the dict is
reset to `{}`. -/
def load_subscribers (current : List (String × Subscriber)) (f : FileState) :
    List (String × Subscriber) :=
  match f with
  | .absent => current
  | .present none => []
  | .present (some j) =>
    match decodeIndex j with
    | some idx => idx
    | none => []

/-- `save_subscribers`: serialize the entire dict and overwrite the file. -/
def save_subscribers (subs : List (String × Subscriber)) : FileState :=
  .present (some (encodeIndex subs))

/-- `__init__(storage_file)`: start from `{}` then `load_subscribers()`. -/
def init (f : FileState) : SubscriberManager :=
  ⟨load_subscribers [] f⟩

/-- `add_subscriber(email, metadata)`. Returns the new manager state, the
`(payload, status_code)` response, and the list of file writes performed. -/
def add_subscriber (m : SubscriberManager) (email0 : String)
    (metadata : Option Metadata) (now : Nat) :
    SubscriberManager × Resp × List FileState :=
  match validate_email email0 with
  | none => (m, ([("error", "The email address is not valid")], 400), [])
  | some email =>
    if (m.subscribers.lookup (strLower email)).isSome then
      (m, ([("error", "Email already exists")], 409), [])
    else
      let subscriber := freshSubscriber email metadata now
      let subs' := dictInsert m.subscribers (strLower email) subscriber
      (⟨subs'⟩, ([("message", "Subscriber added successfully")], 201),
       [save_subscribers subs'])

/-- The `for email, subscriber in self.subscribers.items()` loop of
`verify_subscriber`: update the first record whose token matches, in
iteration (insertion) order; `none` when no record matches. -/
def verifyLoop (token : String) (now : Nat) :
    List (String × Subscriber) → Option (List (String × Subscriber))
  | [] => none
  | (e, s) :: rest =>
    if s.verification_token = token then
      some ((e, verifySet s now) :: rest)
    else
      match verifyLoop token now rest with
      | some rest' => some ((e, s) :: rest')
      | none => none

/-- `verify_subscriber(token)`. Returns the new manager state, the
`(payload, status_code)` response, and the list of file writes performed. -/
def verify_subscriber (m : SubscriberManager) (token : String) (now : Nat) :
    SubscriberManager × Resp × List FileState :=
  match verifyLoop token now m.subscribers with
  | some subs' =>
    (⟨subs'⟩, ([("message", "Email verified successfully")], 200),
     [save_subscribers subs'])
  | none => (m, ([("error", "Invalid verification token")], 400), [])

/-- `get_subscriber_stats()`: the jsonified report dict. Pure read: it takes
the manager state and returns only the report, performing no write. -/
def get_subscriber_stats (m : SubscriberManager) (now : Nat) :
    List (String × JVal) :=
  let total := m.subscribers.length
  let active := (m.subscribers.map Prod.snd).countP (fun s => s.status == "active")
  let unverified := (m.subscribers.map Prod.snd).countP (fun s => !s.verified)
  [("total", .num total), ("active", .num active),
   ("unverified", .num unverified), ("last_updated", .num now)]

end SubscriberManager

/-- Reads a numeric field out of a stats report (0 when absent), used to
state properties about individual report fields. -/
def statNat (report : List (String × JVal)) (key : String) : Nat :=
  match report.lookup key with
  | some (.num n) => n
  | _ => 0

/-- The record invariant of the spec: `verified` implies `status = "active"`,
and `status = "pending"` implies not `verified`. -/
def recordInv (s : Subscriber) : Prop :=
  (s.verified = true → s.status = "active") ∧ (s.status = "pending" → s.verified = false)

/-- The index invariant: every record in the dict satisfies `recordInv`. -/
def indexInv (subs : List (String × Subscriber)) : Prop :=
  ∀ p ∈ subs, recordInv p.2

/-- A public mutating operation of the manager (register or verify),
with the instant at which it runs. -/
inductive Op where
  | add (email : String) (metadata : Option Metadata) (now : Nat)
  | verify (token : String) (now : Nat)

/-- Application of one public operation to the manager state. -/
def applyOp (m : SubscriberManager) : Op → SubscriberManager
  | .add email md now => (m.add_subscriber email md now).1
  | .verify token now => (m.verify_subscriber token now).1

/-- The manager state reached from the empty index by a sequence of public
operations. -/
def runOps (ops : List Op) : SubscriberManager :=
  ops.foldl applyOp ⟨[]⟩

/-! ### Helper lemmas -/

theorem lookup_none_dictInsert (l : List (String × Subscriber)) (k : String)
    (v : Subscriber) (h : l.lookup k = none) : dictInsert l k v = l ++ [(k, v)] := by
  induction l with
  | nil => rfl
  | cons p rest ih =>
    obtain ⟨k', v'⟩ := p
    rw [List.lookup] at h
    by_cases hk : k = k'
    · simp [hk] at h
    · have hbeq : (k == k') = false := beq_false_of_ne hk
      rw [hbeq] at h
      simp only [dictInsert, List.cons_append]
      rw [if_neg (fun hc => hk hc.symm), ih h]

theorem mem_dictInsert (l : List (String × Subscriber)) (k : String)
    (v : Subscriber) (p : String × Subscriber) (h : p ∈ dictInsert l k v) :
    p ∈ l ∨ p = (k, v) := by
  induction l with
  | nil => simp [dictInsert] at h; simp [h]
  | cons q rest ih =>
    obtain ⟨k', v'⟩ := q
    simp only [dictInsert] at h
    by_cases hk : k' = k
    · rw [if_pos hk] at h
      rcases List.mem_cons.mp h with h1 | h1
      · right; exact h1
      · left; exact List.mem_cons_of_mem _ h1
    · rw [if_neg hk] at h
      rcases List.mem_cons.mp h with h1 | h1
      · left; exact h1 ▸ List.mem_cons_self _ _
      · rcases ih h1 with h2 | h2
        · left; exact List.mem_cons_of_mem _ h2
        · right; exact h2

namespace SubscriberManager

theorem verifyLoop_eq_none (token : String) (now : Nat)
    (subs : List (String × Subscriber))
    (h : ∀ p ∈ subs, p.2.verification_token ≠ token) :
    verifyLoop token now subs = none := by
  induction subs with
  | nil => rfl
  | cons p rest ih =>
    rw [verifyLoop]
    rw [if_neg (h p (List.mem_cons_self _ _)), ih (fun q hq => h q (List.mem_cons_of_mem _ hq))]

theorem verifyLoop_first (token : String) (now : Nat)
    (pre post : List (String × Subscriber)) (key : String) (s : Subscriber)
    (hpre : ∀ p ∈ pre, p.2.verification_token ≠ token)
    (hs : s.verification_token = token) :
    verifyLoop token now (pre ++ (key, s) :: post) =
      some (pre ++ (key, verifySet s now) :: post) := by
  induction pre with
  | nil => simp [verifyLoop, hs]
  | cons p rest ih =>
    obtain ⟨k', v'⟩ := p
    rw [List.cons_append, verifyLoop,
      if_neg (hpre (k', v') (List.mem_cons_self _ _)),
      ih (fun q hq => hpre q (List.mem_cons_of_mem _ hq))]
    rfl

theorem add_subscriber_fresh_eq (m : SubscriberManager) (email0 : String)
    (md : Option Metadata) (now : Nat) (e : String)
    (hv : validate_email email0 = some e)
    (hfresh : m.subscribers.lookup (strLower e) = none) :
    m.add_subscriber email0 md now =
      (⟨m.subscribers ++ [(strLower e, freshSubscriber e md now)]⟩,
       ([("message", "Subscriber added successfully")], 201),
       [save_subscribers (m.subscribers ++ [(strLower e, freshSubscriber e md now)])]) := by
  rw [add_subscriber, hv]
  simp only [hfresh, Option.isSome_none, Bool.false_eq_true, if_false,
    lookup_none_dictInsert _ _ _ hfresh]

theorem add_subscriber_dup_eq (m : SubscriberManager) (email0 : String)
    (md : Option Metadata) (now : Nat) (e : String)
    (hv : validate_email email0 = some e)
    (hdup : (m.subscribers.lookup (strLower e)).isSome) :
    m.add_subscriber email0 md now =
      (m, ([("error", "Email already exists")], 409), []) := by
  rw [add_subscriber, hv]
  simp only [hdup, if_true]

theorem verify_subscriber_success_eq (pre post : List (String × Subscriber))
    (key : String) (s : Subscriber) (token : String) (now : Nat)
    (hpre : ∀ p ∈ pre, p.2.verification_token ≠ token)
    (hs : s.verification_token = token) :
    verify_subscriber ⟨pre ++ (key, s) :: post⟩ token now =
      (⟨pre ++ (key, verifySet s now) :: post⟩,
       ([("message", "Email verified successfully")], 200),
       [save_subscribers (pre ++ (key, verifySet s now) :: post)]) := by
  rw [verify_subscriber]
  rw [verifyLoop_first token now pre post key s hpre hs]

theorem verify_subscriber_fail_eq (m : SubscriberManager) (token : String) (now : Nat)
    (h : ∀ p ∈ m.subscribers, p.2.verification_token ≠ token) :
    m.verify_subscriber token now =
      (m, ([("error", "Invalid verification token")], 400), []) := by
  rw [verify_subscriber, verifyLoop_eq_none token now m.subscribers h]

end SubscriberManager

theorem decodeMeta_encodeMeta (md : Metadata) : decodeMeta (encodeMeta md) = some md := by
  rw [encodeMeta, decodeMeta]
  induction md with
  | nil => rfl
  | cons p rest ih =>
    obtain ⟨k, v⟩ := p
    rw [List.map_cons, decodeMetaEntries, ih]
    rfl

theorem decodeSubscriber_encodeSubscriber (s : Subscriber) :
    decodeSubscriber (encodeSubscriber s) = some s := by
  show (decodeMeta (encodeMeta s.metadata)).map _ = some s
  rw [decodeMeta_encodeMeta]
  rfl

theorem decodeIndex_encodeIndex (subs : List (String × Subscriber)) :
    decodeIndex (encodeIndex subs) = some subs := by
  rw [encodeIndex, decodeIndex]
  induction subs with
  | nil => rfl
  | cons p rest ih =>
    obtain ⟨k, v⟩ := p
    rw [List.map_cons, decodeIndexEntries, decodeSubscriber_encodeSubscriber, ih]
    rfl

theorem statNat_total (m : SubscriberManager) (now : Nat) :
    statNat (m.get_subscriber_stats now) "total" = m.subscribers.length := rfl

theorem statNat_active (m : SubscriberManager) (now : Nat) :
    statNat (m.get_subscriber_stats now) "active" =
      (m.subscribers.map Prod.snd).countP (fun s => s.status == "active") := rfl

theorem statNat_unverified (m : SubscriberManager) (now : Nat) :
    statNat (m.get_subscriber_stats now) "unverified" =
      (m.subscribers.map Prod.snd).countP (fun s => !s.verified) := rfl

theorem add_subscriber_invalid_eq (m : SubscriberManager) (email0 : String)
    (md : Option Metadata) (now : Nat)
    (hv : validate_email email0 = none) :
    m.add_subscriber email0 md now =
      (m, ([("error", "The email address is not valid")], 400), []) := by
  rw [SubscriberManager.add_subscriber, hv]

theorem recordInv_verifySet (s : Subscriber) (now : Nat) :
    recordInv (verifySet s now) := by
  constructor
  · intro _; rfl
  · intro h
    have hst : (verifySet s now).status = "active" := rfl
    rw [hst] at h
    exact absurd h (by decide)

theorem recordInv_freshSubscriber (email : String) (md : Option Metadata) (now : Nat) :
    recordInv (freshSubscriber email md now) := by
  constructor
  · intro h
    have hv : (freshSubscriber email md now).verified = false := rfl
    rw [hv] at h
    exact absurd h (by decide)
  · intro _; rfl

theorem verifyLoop_indexInv (token : String) (now : Nat)
    (subs subs' : List (String × Subscriber))
    (hl : SubscriberManager.verifyLoop token now subs = some subs')
    (h : indexInv subs) : indexInv subs' := by
  induction subs generalizing subs' with
  | nil => exact absurd hl (by simp [SubscriberManager.verifyLoop])
  | cons p rest ih =>
    obtain ⟨e, s⟩ := p
    rw [SubscriberManager.verifyLoop] at hl
    by_cases hm : s.verification_token = token
    · rw [if_pos hm] at hl
      cases hl
      intro q hq
      rcases List.mem_cons.mp hq with h1 | h1
      · rw [h1]; exact recordInv_verifySet s now
      · exact h q (List.mem_cons_of_mem _ h1)
    · rw [if_neg hm] at hl
      cases hr : SubscriberManager.verifyLoop token now rest with
      | none => rw [hr] at hl; cases hl
      | some rest' =>
        rw [hr] at hl
        cases hl
        intro q hq
        rcases List.mem_cons.mp hq with h1 | h1
        · rw [h1]; exact h (e, s) (List.mem_cons_self _ _)
        · exact ih rest' hr (fun r hr2 => h r (List.mem_cons_of_mem _ hr2)) q h1

theorem applyOp_indexInv (m : SubscriberManager) (op : Op)
    (h : indexInv m.subscribers) : indexInv (applyOp m op).subscribers := by
  cases op with
  | add email md now =>
    rw [applyOp]
    cases hv : validate_email email with
    | none => rw [add_subscriber_invalid_eq m email md now hv]; exact h
    | some e =>
      by_cases hdup : (m.subscribers.lookup (strLower e)).isSome
      · rw [SubscriberManager.add_subscriber_dup_eq m email md now e hv hdup]; exact h
      · have hnone := Option.not_isSome_iff_eq_none.mp hdup
        rw [SubscriberManager.add_subscriber_fresh_eq m email md now e hv hnone]
        intro p hp
        rcases List.mem_append.mp hp with h1 | h1
        · exact h p h1
        · rw [List.mem_singleton.mp h1]; exact recordInv_freshSubscriber e md now
  | verify token now =>
    rw [applyOp, SubscriberManager.verify_subscriber]
    cases hl : SubscriberManager.verifyLoop token now m.subscribers with
    | none => exact h
    | some subs' => exact verifyLoop_indexInv token now m.subscribers subs' hl h

theorem foldl_applyOp_indexInv (ops : List Op) (m : SubscriberManager)
    (h : indexInv m.subscribers) : indexInv (ops.foldl applyOp m).subscribers := by
  induction ops generalizing m with
  | nil => exact h
  | cons op rest ih => exact ih (applyOp m op) (applyOp_indexInv m op h)

/-! ### Claim theorems -/

/-- C1: registering a syntactically valid email whose lower-cased key is not
yet in the index succeeds with 201, appends exactly one new record whose
status is "pending", whose verified flag is false, whose metadata is the
supplied mapping (empty when none is given), and whose joined_date and
last_updated are the creation instant; the full index is then saved exactly
once. -/
theorem C1_register_fresh_succeeds (m : SubscriberManager) (email0 : String)
    (md : Option Metadata) (now : Nat) (e : String)
    (hv : validate_email email0 = some e)
    (hfresh : m.subscribers.lookup (strLower e) = none) :
    m.add_subscriber email0 md now =
      (⟨m.subscribers ++ [(strLower e, freshSubscriber e md now)]⟩,
       ([("message", "Subscriber added successfully")], 201),
       [SubscriberManager.save_subscribers
          (m.subscribers ++ [(strLower e, freshSubscriber e md now)])]) ∧
    (freshSubscriber e md now).status = "pending" ∧
    (freshSubscriber e md now).verified = false ∧
    (freshSubscriber e md now).metadata = md.getD [] ∧
    (freshSubscriber e md now).joined_date = now ∧
    (freshSubscriber e md now).last_updated = now :=
  ⟨SubscriberManager.add_subscriber_fresh_eq m email0 md now e hv hfresh,
   rfl, rfl, rfl, rfl, rfl⟩

/-- C1 witness: registering "a@b.co" with no metadata at instant 5 into the
empty index. -/
theorem C1_register_fresh_succeeds_witness :
    SubscriberManager.add_subscriber ⟨[]⟩ "a@b.co" none 5 =
      (⟨[("a@b.co", freshSubscriber "a@b.co" none 5)]⟩,
       ([("message", "Subscriber added successfully")], 201),
       [SubscriberManager.save_subscribers [("a@b.co", freshSubscriber "a@b.co" none 5)]]) ∧
    (freshSubscriber "a@b.co" none 5).status = "pending" ∧
    (freshSubscriber "a@b.co" none 5).verified = false ∧
    (freshSubscriber "a@b.co" none 5).metadata = [] ∧
    (freshSubscriber "a@b.co" none 5).joined_date = 5 ∧
    (freshSubscriber "a@b.co" none 5).last_updated = 5 :=
  C1_register_fresh_succeeds ⟨[]⟩ "a@b.co" none 5 "a@b.co" rfl rfl

/-- C2: after registering an email, a second registration of any address whose
normalized form lower-cases to the same key fails with 409 "Email already
exists" and no save; the index still holds exactly one record for that email
and the stored key is the lower-cased form. -/
theorem C2_register_duplicate_fails (email1 email2 : String)
    (md1 md2 : Option Metadata) (t1 t2 : Nat) (e1 e2 : String)
    (hv1 : validate_email email1 = some e1)
    (hv2 : validate_email email2 = some e2)
    (hsame : strLower e2 = strLower e1) :
    SubscriberManager.add_subscriber
        ((SubscriberManager.add_subscriber ⟨[]⟩ email1 md1 t1).1) email2 md2 t2 =
      ((SubscriberManager.add_subscriber ⟨[]⟩ email1 md1 t1).1,
       ([("error", "Email already exists")], 409), []) ∧
    ((SubscriberManager.add_subscriber ⟨[]⟩ email1 md1 t1).1).subscribers.map Prod.fst
      = [strLower e1] := by
  have hm1 : (SubscriberManager.add_subscriber ⟨[]⟩ email1 md1 t1).1 =
      ⟨[(strLower e1, freshSubscriber e1 md1 t1)]⟩ := by
    rw [SubscriberManager.add_subscriber_fresh_eq ⟨[]⟩ email1 md1 t1 e1 hv1 rfl]
    rfl
  constructor
  · rw [hm1]
    apply SubscriberManager.add_subscriber_dup_eq _ email2 md2 t2 e2 hv2
    rw [hsame]
    simp [List.lookup]
  · rw [hm1]; rfl

/-- C2 witness: registering "A@Example.com" then "a@example.com" (the
validator normalizes the first to "A@example.com"; both lower-case to
"a@example.com", which is the stored key). -/
theorem C2_register_duplicate_fails_witness :
    SubscriberManager.add_subscriber
        ((SubscriberManager.add_subscriber ⟨[]⟩ "A@Example.com" none 1).1)
        "a@example.com" none 2 =
      ((SubscriberManager.add_subscriber ⟨[]⟩ "A@Example.com" none 1).1,
       ([("error", "Email already exists")], 409), []) ∧
    ((SubscriberManager.add_subscriber ⟨[]⟩ "A@Example.com" none 1).1).subscribers.map
        Prod.fst = ["a@example.com"] :=
  C2_register_duplicate_fails "A@Example.com" "a@example.com" none none 1 2
    "A@example.com" "a@example.com" rfl rfl rfl

/-- C4: verifying a token that matches no record's verification token fails
with 400 "Invalid verification token", leaves the manager state unchanged,
and performs no save. -/
theorem C4_verify_unknown_token (m : SubscriberManager) (token : String) (now : Nat)
    (h : ∀ p ∈ m.subscribers, p.2.verification_token ≠ token) :
    m.verify_subscriber token now =
      (m, ([("error", "Invalid verification token")], 400), []) :=
  SubscriberManager.verify_subscriber_fail_eq m token now h

/-- C4 witness: verifying the unknown token "u" against an index holding one
record with token "t". -/
theorem C4_verify_unknown_token_witness :
    SubscriberManager.verify_subscriber
        ⟨[("a@b.co", ⟨"a@b.co", 0, "pending", "t", false, 0, []⟩)]⟩ "u" 3 =
      (⟨[("a@b.co", ⟨"a@b.co", 0, "pending", "t", false, 0, []⟩)]⟩,
       ([("error", "Invalid verification token")], 400), []) :=
  C4_verify_unknown_token ⟨[("a@b.co", ⟨"a@b.co", 0, "pending", "t", false, 0, []⟩)]⟩
    "u" 3 (by decide)

/-- C7: saving any index through the Store and loading from the same backing
file yields a mapping field-for-field equal to the one saved. -/
theorem C7_save_load_roundtrip (cur idx : List (String × Subscriber)) :
    SubscriberManager.load_subscribers cur (SubscriberManager.save_subscribers idx)
      = idx := by
  show (match decodeIndex (encodeIndex idx) with | some i => i | none => []) = idx
  rw [decodeIndex_encodeIndex]

/-- C9: the invariant "verified implies status active, and status pending
implies not verified" holds for every record in every state reachable from
the empty index through the public register and verify operations. -/
theorem C9_reachable_invariant (ops : List Op) : indexInv (runOps ops).subscribers :=
  foldl_applyOp_indexInv ops ⟨[]⟩ (fun p hp => absurd hp (List.not_mem_nil p))

/-- C10: when several records share the same verification token, verify
updates exactly the first matching record in index iteration order; every
other record, including the later matches, is left unchanged. -/
theorem C10_verify_first_match_only (pre post : List (String × Subscriber))
    (key : String) (s : Subscriber) (token : String) (now : Nat)
    (hpre : ∀ p ∈ pre, p.2.verification_token ≠ token)
    (hs : s.verification_token = token) :
    SubscriberManager.verify_subscriber ⟨pre ++ (key, s) :: post⟩ token now =
      (⟨pre ++ (key, verifySet s now) :: post⟩,
       ([("message", "Email verified successfully")], 200),
       [SubscriberManager.save_subscribers (pre ++ (key, verifySet s now) :: post)]) :=
  SubscriberManager.verify_subscriber_success_eq pre post key s token now hpre hs

/-- C10 witness: two records share the token "t"; only the first is updated,
the second keeps its pending, unverified state. -/
theorem C10_verify_first_match_only_witness :
    SubscriberManager.verify_subscriber
        ⟨[("a@b.co", ⟨"a@b.co", 0, "pending", "t", false, 0, []⟩),
          ("c@d.co", ⟨"c@d.co", 1, "pending", "t", false, 1, []⟩)]⟩ "t" 9 =
      (⟨[("a@b.co", ⟨"a@b.co", 0, "active", "t", true, 9, []⟩),
         ("c@d.co", ⟨"c@d.co", 1, "pending", "t", false, 1, []⟩)]⟩,
       ([("message", "Email verified successfully")], 200),
       [SubscriberManager.save_subscribers
          [("a@b.co", ⟨"a@b.co", 0, "active", "t", true, 9, []⟩),
           ("c@d.co", ⟨"c@d.co", 1, "pending", "t", false, 1, []⟩)]]) :=
  C10_verify_first_match_only [] [("c@d.co", ⟨"c@d.co", 1, "pending", "t", false, 1, []⟩)]
    "a@b.co" ⟨"a@b.co", 0, "pending", "t", false, 0, []⟩ "t" 9 (by decide) rfl

/-- C3: verifying a token that equals the verification token of exactly one
record succeeds with 200, sets that record's verified flag, sets its status to
"active", refreshes its last_updated, and saves the full index once; when the
record was pending and unverified, the stats active count rises by 1 and the
unverified count drops by 1. -/
theorem C3_verify_valid_token (pre post : List (String × Subscriber))
    (key : String) (s : Subscriber) (token : String) (tv ts : Nat)
    (hpre : ∀ p ∈ pre, p.2.verification_token ≠ token)
    (hpost : ∀ p ∈ post, p.2.verification_token ≠ token)
    (hs : s.verification_token = token) :
    SubscriberManager.verify_subscriber ⟨pre ++ (key, s) :: post⟩ token tv =
      (⟨pre ++ (key, verifySet s tv) :: post⟩,
       ([("message", "Email verified successfully")], 200),
       [SubscriberManager.save_subscribers (pre ++ (key, verifySet s tv) :: post)]) ∧
    (s.status = "pending" → s.verified = false →
      statNat (SubscriberManager.get_subscriber_stats
          ⟨pre ++ (key, verifySet s tv) :: post⟩ ts) "active"
        = statNat (SubscriberManager.get_subscriber_stats
            ⟨pre ++ (key, s) :: post⟩ ts) "active" + 1 ∧
      statNat (SubscriberManager.get_subscriber_stats
          ⟨pre ++ (key, s) :: post⟩ ts) "unverified"
        = statNat (SubscriberManager.get_subscriber_stats
            ⟨pre ++ (key, verifySet s tv) :: post⟩ ts) "unverified" + 1) := by
  refine ⟨SubscriberManager.verify_subscriber_success_eq pre post key s token tv hpre hs,
    fun hp hunv => ⟨?_, ?_⟩⟩
  · rw [statNat_active, statNat_active]
    simp only [List.map_append, List.map_cons, List.countP_append, List.countP_cons]
    have h1 : ((verifySet s tv).status == "active") = true := rfl
    have h2 : (s.status == "active") = false := by rw [hp]; rfl
    simp [h1, h2]
    omega
  · rw [statNat_unverified, statNat_unverified]
    simp only [List.map_append, List.map_cons, List.countP_append, List.countP_cons]
    have h1 : (!(verifySet s tv).verified) = false := rfl
    have h2 : (!s.verified) = true := by rw [hunv]; rfl
    simp [h1, h2]
    omega

/-- C3 witness: verifying token "t" of the single pending record at instant 9;
stats taken at instant 11. -/
theorem C3_verify_valid_token_witness :
    SubscriberManager.verify_subscriber
        ⟨[("a@b.co", ⟨"a@b.co", 0, "pending", "t", false, 0, []⟩)]⟩ "t" 9 =
      (⟨[("a@b.co", verifySet ⟨"a@b.co", 0, "pending", "t", false, 0, []⟩ 9)]⟩,
       ([("message", "Email verified successfully")], 200),
       [SubscriberManager.save_subscribers
          [("a@b.co", verifySet ⟨"a@b.co", 0, "pending", "t", false, 0, []⟩ 9)]]) ∧
    ("pending" = "pending" → false = false →
      statNat (SubscriberManager.get_subscriber_stats
          ⟨[("a@b.co", verifySet ⟨"a@b.co", 0, "pending", "t", false, 0, []⟩ 9)]⟩ 11)
          "active"
        = statNat (SubscriberManager.get_subscriber_stats
            ⟨[("a@b.co", ⟨"a@b.co", 0, "pending", "t", false, 0, []⟩)]⟩ 11) "active" + 1 ∧
      statNat (SubscriberManager.get_subscriber_stats
          ⟨[("a@b.co", ⟨"a@b.co", 0, "pending", "t", false, 0, []⟩)]⟩ 11) "unverified"
        = statNat (SubscriberManager.get_subscriber_stats
            ⟨[("a@b.co", verifySet ⟨"a@b.co", 0, "pending", "t", false, 0, []⟩ 9)]⟩ 11)
            "unverified" + 1) :=
  C3_verify_valid_token [] [] "a@b.co" ⟨"a@b.co", 0, "pending", "t", false, 0, []⟩
    "t" 9 11 (by decide) (by decide) rfl

/-- C5 counterexample: re-verifying a valid token refreshes last_updated, so
when the second call runs at a later instant the record state after the second
call is NOT identical to its state after the first call (both calls do
succeed with 200). -/
theorem C5_counterexample :
    (SubscriberManager.verify_subscriber
        ⟨[("a@b.co", ⟨"a@b.co", 0, "pending", "t", false, 0, []⟩)]⟩ "t" 0).2.1.2 = 200 ∧
    (SubscriberManager.verify_subscriber
        (SubscriberManager.verify_subscriber
          ⟨[("a@b.co", ⟨"a@b.co", 0, "pending", "t", false, 0, []⟩)]⟩ "t" 0).1
        "t" 1).2.1.2 = 200 ∧
    (SubscriberManager.verify_subscriber
        (SubscriberManager.verify_subscriber
          ⟨[("a@b.co", ⟨"a@b.co", 0, "pending", "t", false, 0, []⟩)]⟩ "t" 0).1
        "t" 1).1 ≠
      (SubscriberManager.verify_subscriber
        ⟨[("a@b.co", ⟨"a@b.co", 0, "pending", "t", false, 0, []⟩)]⟩ "t" 0).1 := by
  refine ⟨rfl, rfl, ?_⟩
  decide

/-- C5 (amended): verifying the same valid token twice in succession succeeds
both times (200); the second call changes nothing in the matched record except
refreshing its last_updated to the second call's instant, re-saves that state,
and leaves the stats counts total, active and unverified unchanged. -/
theorem C5_verify_idempotent_amended (pre post : List (String × Subscriber))
    (key : String) (s : Subscriber) (token : String) (t1 t2 ts : Nat)
    (hpre : ∀ p ∈ pre, p.2.verification_token ≠ token)
    (hs : s.verification_token = token) :
    SubscriberManager.verify_subscriber ⟨pre ++ (key, s) :: post⟩ token t1 =
      (⟨pre ++ (key, verifySet s t1) :: post⟩,
       ([("message", "Email verified successfully")], 200),
       [SubscriberManager.save_subscribers (pre ++ (key, verifySet s t1) :: post)]) ∧
    SubscriberManager.verify_subscriber ⟨pre ++ (key, verifySet s t1) :: post⟩ token t2 =
      (⟨pre ++ (key, verifySet s t2) :: post⟩,
       ([("message", "Email verified successfully")], 200),
       [SubscriberManager.save_subscribers (pre ++ (key, verifySet s t2) :: post)]) ∧
    statNat (SubscriberManager.get_subscriber_stats
        ⟨pre ++ (key, verifySet s t2) :: post⟩ ts) "total"
      = statNat (SubscriberManager.get_subscriber_stats
          ⟨pre ++ (key, verifySet s t1) :: post⟩ ts) "total" ∧
    statNat (SubscriberManager.get_subscriber_stats
        ⟨pre ++ (key, verifySet s t2) :: post⟩ ts) "active"
      = statNat (SubscriberManager.get_subscriber_stats
          ⟨pre ++ (key, verifySet s t1) :: post⟩ ts) "active" ∧
    statNat (SubscriberManager.get_subscriber_stats
        ⟨pre ++ (key, verifySet s t2) :: post⟩ ts) "unverified"
      = statNat (SubscriberManager.get_subscriber_stats
          ⟨pre ++ (key, verifySet s t1) :: post⟩ ts) "unverified" := by
  refine ⟨SubscriberManager.verify_subscriber_success_eq pre post key s token t1 hpre hs,
    SubscriberManager.verify_subscriber_success_eq pre post key (verifySet s t1) token t2
      hpre hs, ?_, ?_, ?_⟩
  · rw [statNat_total, statNat_total]
    simp
  · rw [statNat_active, statNat_active]
    simp only [List.map_append, List.map_cons, List.countP_append, List.countP_cons]
    rfl
  · rw [statNat_unverified, statNat_unverified]
    simp only [List.map_append, List.map_cons, List.countP_append, List.countP_cons]
    rfl

/-- C5 witness (for the amended claim): verifying token "t" at instant 4 and
again at instant 7; stats taken at instant 11. -/
theorem C5_verify_idempotent_amended_witness :
    SubscriberManager.verify_subscriber
        ⟨[("a@b.co", ⟨"a@b.co", 0, "pending", "t", false, 0, []⟩)]⟩ "t" 4 =
      (⟨[("a@b.co", verifySet ⟨"a@b.co", 0, "pending", "t", false, 0, []⟩ 4)]⟩,
       ([("message", "Email verified successfully")], 200),
       [SubscriberManager.save_subscribers
          [("a@b.co", verifySet ⟨"a@b.co", 0, "pending", "t", false, 0, []⟩ 4)]]) ∧
    SubscriberManager.verify_subscriber
        ⟨[("a@b.co", verifySet ⟨"a@b.co", 0, "pending", "t", false, 0, []⟩ 4)]⟩ "t" 7 =
      (⟨[("a@b.co", verifySet ⟨"a@b.co", 0, "pending", "t", false, 0, []⟩ 7)]⟩,
       ([("message", "Email verified successfully")], 200),
       [SubscriberManager.save_subscribers
          [("a@b.co", verifySet ⟨"a@b.co", 0, "pending", "t", false, 0, []⟩ 7)]]) ∧
    statNat (SubscriberManager.get_subscriber_stats
        ⟨[("a@b.co", verifySet ⟨"a@b.co", 0, "pending", "t", false, 0, []⟩ 7)]⟩ 11)
        "total"
      = statNat (SubscriberManager.get_subscriber_stats
          ⟨[("a@b.co", verifySet ⟨"a@b.co", 0, "pending", "t", false, 0, []⟩ 4)]⟩ 11)
          "total" ∧
    statNat (SubscriberManager.get_subscriber_stats
        ⟨[("a@b.co", verifySet ⟨"a@b.co", 0, "pending", "t", false, 0, []⟩ 7)]⟩ 11)
        "active"
      = statNat (SubscriberManager.get_subscriber_stats
          ⟨[("a@b.co", verifySet ⟨"a@b.co", 0, "pending", "t", false, 0, []⟩ 4)]⟩ 11)
          "active" ∧
    statNat (SubscriberManager.get_subscriber_stats
        ⟨[("a@b.co", verifySet ⟨"a@b.co", 0, "pending", "t", false, 0, []⟩ 7)]⟩ 11)
        "unverified"
      = statNat (SubscriberManager.get_subscriber_stats
          ⟨[("a@b.co", verifySet ⟨"a@b.co", 0, "pending", "t", false, 0, []⟩ 4)]⟩ 11)
          "unverified" :=
  C5_verify_idempotent_amended [] [] "a@b.co" ⟨"a@b.co", 0, "pending", "t", false, 0, []⟩
    "t" 4 7 11 (by decide) rfl

/-- C6 counterexample: the stats report carries its report-generation
timestamp under the key "last_updated", and has no field named
"generated_at". -/
theorem C6_counterexample :
    (SubscriberManager.get_subscriber_stats ⟨[]⟩ 0).lookup "generated_at" = none ∧
    (SubscriberManager.get_subscriber_stats ⟨[]⟩ 0).lookup "last_updated"
      = some (.num 0) :=
  ⟨rfl, rfl⟩

/-- C6 (amended): stats returns total = the number of records, active = the
number of records with status "active", unverified = the number of records
with verified false, plus the report-generation timestamp stored under the
field name "last_updated" (there is no field named "generated_at"); on an
empty index the three counts are 0. It reads the index and returns only the
report, with no persistence side effect. -/
theorem C6_stats_amended (m : SubscriberManager) (now : Nat) :
    statNat (m.get_subscriber_stats now) "total" = m.subscribers.length ∧
    statNat (m.get_subscriber_stats now) "active"
      = (m.subscribers.filter (fun p => p.2.status == "active")).length ∧
    statNat (m.get_subscriber_stats now) "unverified"
      = (m.subscribers.filter (fun p => !p.2.verified)).length ∧
    (m.get_subscriber_stats now).lookup "last_updated" = some (.num now) ∧
    (m.get_subscriber_stats now).lookup "generated_at" = none ∧
    statNat (SubscriberManager.get_subscriber_stats ⟨[]⟩ now) "total" = 0 ∧
    statNat (SubscriberManager.get_subscriber_stats ⟨[]⟩ now) "active" = 0 ∧
    statNat (SubscriberManager.get_subscriber_stats ⟨[]⟩ now) "unverified" = 0 := by
  refine ⟨rfl, ?_, ?_, rfl, rfl, rfl, rfl, rfl⟩
  · rw [statNat_active, List.countP_map, List.countP_eq_length_filter]
    rfl
  · rw [statNat_unverified, List.countP_map, List.countP_eq_length_filter]
    rfl

/-- C8: loading when the backing file is absent yields the empty mapping (the
manager's initial state), and loading a file that is unreadable or whose
content does not decode yields the empty mapping as well. -/
theorem C8_load_absent_or_corrupt (cur : List (String × Subscriber)) (j : JVal)
    (hbad : decodeIndex j = none) :
    SubscriberManager.init .absent = ⟨[]⟩ ∧
    SubscriberManager.load_subscribers cur (.present none) = [] ∧
    SubscriberManager.load_subscribers cur (.present (some j)) = [] := by
  refine ⟨rfl, rfl, ?_⟩
  show (match decodeIndex j with | some i => i | none => []) = []
  rw [hbad]

/-- C8 witness: a nonempty in-memory dict plus a file holding the undecodable
JSON string "oops". -/
theorem C8_load_absent_or_corrupt_witness :
    decodeIndex (.str "oops") = none ∧
    (SubscriberManager.init .absent = ⟨[]⟩ ∧
     SubscriberManager.load_subscribers
        [("k", ⟨"k", 0, "pending", "t", false, 0, []⟩)] (.present none) = [] ∧
     SubscriberManager.load_subscribers
        [("k", ⟨"k", 0, "pending", "t", false, 0, []⟩)]
        (.present (some (.str "oops"))) = []) :=
  ⟨rfl, C8_load_absent_or_corrupt [("k", ⟨"k", 0, "pending", "t", false, 0, []⟩)]
    (.str "oops") rfl⟩
